import Mathlib

/-!
Verification of the rigid-body core of JoltPhysics (`Jolt/Physics/Body/Body.inl`):
transform computation, incremental rotation integration, collision-pair admission,
and impulse application.  Machine floats are modelled as real numbers; `uint32`
active-list indices are modelled as `Nat` with the sentinel `0xffffffff`.
Supporting types that live outside `Body.inl` (`Vec3`, `Quat`, `Mat44`,
`MotionProperties`, `CollisionGroup`) are modelled from the specification.
-/

/-- Three-component real vector, modelling Jolt's `Vec3`. -/
structure Vec3 where
  x : ℝ
  y : ℝ
  z : ℝ


namespace Vec3

/-- Componentwise addition (`Vec3::operator+`). -/
def add (v w : Vec3) : Vec3 := ⟨v.x + w.x, v.y + w.y, v.z + w.z⟩

/-- Componentwise subtraction (`Vec3::operator-`). -/
def sub (v w : Vec3) : Vec3 := ⟨v.x - w.x, v.y - w.y, v.z - w.z⟩

/-- Scalar multiple (`Vec3::operator*` with a scalar). -/
def smul (r : ℝ) (v : Vec3) : Vec3 := ⟨r * v.x, r * v.y, r * v.z⟩

/-- Cross product (`Vec3::Cross`). -/
def cross (v w : Vec3) : Vec3 :=
  ⟨v.y * w.z - v.z * w.y, v.z * w.x - v.x * w.z, v.x * w.y - v.y * w.x⟩

/-- Squared Euclidean length (`Vec3::LengthSq`). -/
def lengthSq (v : Vec3) : ℝ := v.x ^ 2 + v.y ^ 2 + v.z ^ 2

/-- Euclidean length (`Vec3::Length`). -/
noncomputable def length (v : Vec3) : ℝ := Real.sqrt v.lengthSq

/-- The zero vector. -/
def zero : Vec3 := ⟨0, 0, 0⟩

/-- Componentwise (Hadamard) product; application of a diagonal matrix to a vector. -/
def hadamard (d v : Vec3) : Vec3 := ⟨d.x * v.x, d.y * v.y, d.z * v.z⟩

end Vec3

instance : Add Vec3 := ⟨Vec3.add⟩
instance : Sub Vec3 := ⟨Vec3.sub⟩
instance : SMul ℝ Vec3 := ⟨Vec3.smul⟩

/-- Quaternion with imaginary components `x, y, z` and real component `w`,
modelling Jolt's `Quat` (stored in `x, y, z, w` order). -/
structure Quat where
  x : ℝ
  y : ℝ
  z : ℝ
  w : ℝ


namespace Quat

/-- Hamilton product, modelling `Quat::operator*`. -/
def mul (p q : Quat) : Quat :=
  ⟨p.w * q.x + p.x * q.w + p.y * q.z - p.z * q.y,
   p.w * q.y - p.x * q.z + p.y * q.w + p.z * q.x,
   p.w * q.z + p.x * q.y - p.y * q.x + p.z * q.w,
   p.w * q.w - p.x * q.x - p.y * q.y - p.z * q.z⟩

/-- Squared norm (`Quat::LengthSq`). -/
def lengthSq (q : Quat) : ℝ := q.x ^ 2 + q.y ^ 2 + q.z ^ 2 + q.w ^ 2

/-- Norm (`Quat::Length`). -/
noncomputable def length (q : Quat) : ℝ := Real.sqrt q.lengthSq

/-- Scalar multiple of a quaternion. -/
def smul (r : ℝ) (q : Quat) : Quat := ⟨r * q.x, r * q.y, r * q.z, r * q.w⟩

/-- `Quat::Normalized`: divide every component by the norm. -/
noncomputable def normalized (q : Quat) : Quat := q.smul q.length⁻¹

/-- Modelled from the spec: `Quat::sRotation` (not under `src/`) builds a unit
quaternion representing a rotation of `angle` radians about the unit `axis`:
imaginary part `sin(angle/2) * axis`, real part `cos(angle/2)`. -/
noncomputable def sRotation (axis : Vec3) (angle : ℝ) : Quat :=
  ⟨Real.sin (angle / 2) * axis.x,
   Real.sin (angle / 2) * axis.y,
   Real.sin (angle / 2) * axis.z,
   Real.cos (angle / 2)⟩

/-- The identity quaternion. -/
def one : Quat := ⟨0, 0, 0, 1⟩

end Quat

instance : Mul Quat := ⟨Quat.mul⟩

/-- Motion type of a body (`EMotionType`). -/
inductive EMotionType where
  | Static
  | Kinematic
  | Dynamic
deriving DecidableEq

/-- Modelled from the spec: `MotionProperties` (not under `src/`): per-body velocity
and mass/inertia state, present for non-static bodies, with clamp limits applied
after every velocity mutation.  The inverse inertia tensor is stored as a diagonal
in body (principal-axis) space. -/
structure MotionProperties where
  linearVelocity : Vec3
  angularVelocity : Vec3
  inverseMass : ℝ
  invInertiaDiagonal : Vec3
  maxLinearVelocity : ℝ
  maxAngularVelocity : ℝ

/-- Rigid body state: identity, pose, motion-type classification, collision group
id, active-list index and sensor flag, with the motion properties attached
(meaningful only for non-static bodies).  The collision group is modelled by an
opaque `Nat` id; compatibility is an external predicate (see
`sFindCollidingPairsCanCollide`). -/
structure Body where
  id : Nat
  position : Vec3
  rotation : Quat
  motionType : EMotionType
  collisionGroup : Nat
  indexInActiveBodies : Nat
  isSensor : Bool
  motionProperties : MotionProperties

namespace Body

/-- `Body::cInactiveIndex = 0xffffffff`, the maximum representable `uint32`. -/
def cInactiveIndex : Nat := 4294967295

/-- `Body::IsDynamic`. -/
def IsDynamic (b : Body) : Bool := b.motionType = EMotionType.Dynamic

/-- `Body::IsKinematic`. -/
def IsKinematic (b : Body) : Bool := b.motionType = EMotionType.Kinematic

/-- `Body::IsStatic`. -/
def IsStatic (b : Body) : Bool := b.motionType = EMotionType.Static

/-- `Body::IsSensor`. -/
def IsSensor (b : Body) : Bool := b.isSensor

/-- `Body::IsActive`: a body is active iff its active-list index is not the sentinel. -/
def IsActive (b : Body) : Bool := b.indexInActiveBodies ≠ cInactiveIndex

/-- The eligibility gate of `Body::sFindCollidingPairsCanCollide` (Body.inl lines
34-36): the pair is rejected when neither body is dynamic, unless body 1 is
kinematic and body 2 is a sensor.  Returns `true` when the pair may proceed. -/
def eligibilityGate (b1 b2 : Body) : Bool :=
  !((!b1.IsDynamic && !b2.IsDynamic) && !(b1.IsKinematic && b2.IsSensor))

/-- `Body::sFindCollidingPairsCanCollide` (Body.inl lines 29-71).  `gf` is the
collision-group compatibility predicate (`CollisionGroup::CanCollide` is not under
`src/`; the spec describes it as an opaque filter), applied to the two bodies'
group ids in order. -/
def sFindCollidingPairsCanCollide (gf : Nat → Nat → Bool) (b1 b2 : Body) : Bool :=
  if !(eligibilityGate b1 b2) then false
  else if b1.indexInActiveBodies ≥ b2.indexInActiveBodies then false
  else if !(gf b1.collisionGroup b2.collisionGroup) then false
  else true

end Body

/-- Modelled from the spec: the rotation part of `Mat44::sRotation(QuatArg)`
(not under `src/`): application of the standard rotation matrix of a quaternion
`(x, y, z, w)` to a vector. -/
def rotateByQuat (q : Quat) (v : Vec3) : Vec3 :=
  ⟨(1 - 2 * (q.y ^ 2 + q.z ^ 2)) * v.x + 2 * (q.x * q.y - q.w * q.z) * v.y
      + 2 * (q.x * q.z + q.w * q.y) * v.z,
   2 * (q.x * q.y + q.w * q.z) * v.x + (1 - 2 * (q.x ^ 2 + q.z ^ 2)) * v.y
      + 2 * (q.y * q.z - q.w * q.x) * v.z,
   2 * (q.x * q.z - q.w * q.y) * v.x + 2 * (q.y * q.z + q.w * q.x) * v.y
      + (1 - 2 * (q.x ^ 2 + q.y ^ 2)) * v.z⟩

/-- Modelled from the spec: application of the transpose of the rotation matrix of
a quaternion to a vector (used by the analytic inverse transform and by
`R · diag · Rᵀ`). -/
def rotateByQuatTransposed (q : Quat) (v : Vec3) : Vec3 :=
  ⟨(1 - 2 * (q.y ^ 2 + q.z ^ 2)) * v.x + 2 * (q.x * q.y + q.w * q.z) * v.y
      + 2 * (q.x * q.z - q.w * q.y) * v.z,
   2 * (q.x * q.y - q.w * q.z) * v.x + (1 - 2 * (q.x ^ 2 + q.z ^ 2)) * v.y
      + 2 * (q.y * q.z + q.w * q.x) * v.z,
   2 * (q.x * q.z + q.w * q.y) * v.x + 2 * (q.y * q.z - q.w * q.x) * v.y
      + (1 - 2 * (q.x ^ 2 + q.y ^ 2)) * v.z⟩

/-- Modelled from the spec: the magnitude clamp applied after every velocity
mutation (`MotionProperties::SetLinearVelocityClamped` /
`SetAngularVelocityClamped` are not under `src/`): if the vector is longer than
`maxLen` it is rescaled to length `maxLen`, otherwise returned unchanged. -/
noncomputable def clampLength (v : Vec3) (maxLen : ℝ) : Vec3 :=
  if v.length > maxLen then (maxLen / v.length) • v else v

namespace Body

/-- `Body::GetCenterOfMassTransform` (Body.inl lines 15-20), as the action of the
affine transform `Mat44::sRotationTranslation(mRotation, mPosition)` on a point:
rotate by `mRotation`, then translate by `mPosition`. -/
def getCenterOfMassTransform (b : Body) (v : Vec3) : Vec3 :=
  rotateByQuat b.rotation v + b.position

/-- `Body::GetInverseCenterOfMassTransform` (Body.inl lines 22-27), as the action
of `Mat44::sInverseRotationTranslation(mRotation, mPosition)` on a point.
Modelled from the spec: the inverse is built analytically — transposed rotation,
rotated negated translation — so the action is `Rᵀ (v - position)`. -/
def getInverseCenterOfMassTransform (b : Body) (v : Vec3) : Vec3 :=
  rotateByQuatTransposed b.rotation (v - b.position)

/-- `Body::AddRotationStep` (Body.inl lines 73-89): if the angular displacement's
length exceeds `1e-6`, pre-multiply the rotation by the axis-angle quaternion
`sRotation(d / len, len)` and re-normalize; otherwise do nothing. -/
noncomputable def addRotationStep (b : Body) (d : Vec3) : Body :=
  if d.length > 1e-6 then
    { b with rotation :=
        ((Quat.sRotation (d.length⁻¹ • d) d.length).mul b.rotation).normalized }
  else b

/-- `Body::SubRotationStep` (Body.inl lines 91-102): same as `addRotationStep`
but with the rotation angle negated. -/
noncomputable def subRotationStep (b : Body) (d : Vec3) : Body :=
  if d.length > 1e-6 then
    { b with rotation :=
        ((Quat.sRotation (d.length⁻¹ • d) (-d.length)).mul b.rotation).normalized }
  else b

/-- `Body::GetInverseInertia` (Body.inl lines 110-115), as the action of the
world-space inverse inertia tensor on a vector.  Modelled from the spec:
`MotionProperties::GetInverseInertiaForRotation` (not under `src/`) computes
`R · diag(invInertiaDiagonal) · Rᵀ`. -/
def getInverseInertia (b : Body) (t : Vec3) : Vec3 :=
  rotateByQuat b.rotation
    (Vec3.hadamard b.motionProperties.invInertiaDiagonal (rotateByQuatTransposed b.rotation t))

/-- Modelled from the spec: `Body::SetLinearVelocityClamped` (not under `src/`)
stores the given linear velocity clamped to `maxLinearVelocity`. -/
noncomputable def setLinearVelocityClamped (b : Body) (v : Vec3) : Body :=
  { b with motionProperties :=
      { b.motionProperties with
          linearVelocity := clampLength v b.motionProperties.maxLinearVelocity } }

/-- Modelled from the spec: `Body::SetAngularVelocityClamped` (not under `src/`)
stores the given angular velocity clamped to `maxAngularVelocity`. -/
noncomputable def setAngularVelocityClamped (b : Body) (v : Vec3) : Body :=
  { b with motionProperties :=
      { b.motionProperties with
          angularVelocity := clampLength v b.motionProperties.maxAngularVelocity } }

/-- `Body::AddImpulse(inImpulse)` (Body.inl lines 117-122): new linear velocity is
the old one plus `impulse * inverseMass`, stored clamped. -/
noncomputable def addImpulse (b : Body) (impulse : Vec3) : Body :=
  b.setLinearVelocityClamped
    (b.motionProperties.linearVelocity + b.motionProperties.inverseMass • impulse)

/-- `Body::AddImpulse(inImpulse, inPosition)` (Body.inl lines 124-131): apply the
linear impulse, then add `InverseInertiaWorld * ((position - mPosition) × impulse)`
to the angular velocity, stored clamped. -/
noncomputable def addImpulseAtPosition (b : Body) (impulse position : Vec3) : Body :=
  let b1 := b.setLinearVelocityClamped
    (b.motionProperties.linearVelocity + b.motionProperties.inverseMass • impulse)
  b1.setAngularVelocityClamped
    (b1.motionProperties.angularVelocity
      + b1.getInverseInertia (Vec3.cross (position - b1.position) impulse))

/-- `Body::AddAngularImpulse` (Body.inl lines 133-138): add
`InverseInertiaWorld * angularImpulse` to the angular velocity, stored clamped. -/
noncomputable def addAngularImpulse (b : Body) (angularImpulse : Vec3) : Body :=
  b.setAngularVelocityClamped
    (b.motionProperties.angularVelocity + b.getInverseInertia angularImpulse)

end Body

/-- Concrete motion properties used in witness instances. -/
noncomputable def mpW : MotionProperties :=
  { linearVelocity := Vec3.zero
    angularVelocity := Vec3.zero
    inverseMass := 0.5
    invInertiaDiagonal := ⟨1, 1, 1⟩
    maxLinearVelocity := 500
    maxAngularVelocity := 47 }

/-- Witness body: active dynamic body at active index 2. -/
noncomputable def bodyA : Body :=
  ⟨1, Vec3.zero, Quat.one, EMotionType.Dynamic, 0, 2, false, mpW⟩

/-- Witness body: active dynamic body at active index 5. -/
noncomputable def bodyB : Body :=
  ⟨2, Vec3.zero, Quat.one, EMotionType.Dynamic, 0, 5, false, mpW⟩

/-- Witness body: inactive static sensor. -/
noncomputable def bodyS : Body :=
  ⟨3, Vec3.zero, Quat.one, EMotionType.Static, 0, Body.cInactiveIndex, true, mpW⟩

/-- Witness body: active kinematic non-sensor body at active index 3. -/
noncomputable def bodyK : Body :=
  ⟨4, Vec3.zero, Quat.one, EMotionType.Kinematic, 0, 3, false, mpW⟩

/-- Witness collision-group predicate admitting every pair. -/
def gfAll : Nat → Nat → Bool := fun _ _ => true

/-- Witness collision-group predicate rejecting every pair. -/
def gfNone : Nat → Nat → Bool := fun _ _ => false

lemma sFind_true_iff (gf : Nat → Nat → Bool) (b1 b2 : Body) :
    Body.sFindCollidingPairsCanCollide gf b1 b2 = true ↔
      Body.eligibilityGate b1 b2 = true ∧
      b1.indexInActiveBodies < b2.indexInActiveBodies ∧
      gf b1.collisionGroup b2.collisionGroup = true := by
  unfold Body.sFindCollidingPairsCanCollide
  split_ifs with h1 h2 h3 <;> simp_all

lemma sFind_false_of_ge (gf : Nat → Nat → Bool) (b1 b2 : Body)
    (h : b1.indexInActiveBodies ≥ b2.indexInActiveBodies) :
    Body.sFindCollidingPairsCanCollide gf b1 b2 = false := by
  cases hb : Body.sFindCollidingPairsCanCollide gf b1 b2 with
  | false => rfl
  | true => exact absurd ((sFind_true_iff gf b1 b2).mp hb).2.1 (by omega)

lemma eligibilityGate_true_iff (b1 b2 : Body) :
    Body.eligibilityGate b1 b2 = true ↔
      b1.IsDynamic = true ∨ b2.IsDynamic = true ∨
        (b1.IsKinematic = true ∧ b2.IsSensor = true) := by
  unfold Body.eligibilityGate
  cases h1 : b1.IsDynamic <;> cases h2 : b2.IsDynamic <;>
    cases h3 : b1.IsKinematic <;> cases h4 : b2.IsSensor <;> simp_all

/-- C1: with body 1 active and non-static, `sFindCollidingPairsCanCollide` admits a
pair only when body 1's active index is strictly below body 2's (inactive bodies
carrying the sentinel maximum); hence for an unordered pair of eligible,
group-compatible active dynamic bodies exactly one ordering is admitted, and a
body never pairs with itself. -/
theorem sFind_ordering_antisymmetry (gf : Nat → Nat → Bool) (b1 b2 : Body)
    (hact : b1.IsActive = true) (hns : b1.IsStatic = false) :
    (Body.sFindCollidingPairsCanCollide gf b1 b2 = true →
       b1.indexInActiveBodies < b2.indexInActiveBodies) ∧
    (Body.sFindCollidingPairsCanCollide gf b1 b2 = true →
       Body.sFindCollidingPairsCanCollide gf b2 b1 = false) ∧
    (b1.IsDynamic = true → b2.IsDynamic = true → b2.IsActive = true →
       b1.indexInActiveBodies ≠ b2.indexInActiveBodies →
       gf b1.collisionGroup b2.collisionGroup = true →
       gf b2.collisionGroup b1.collisionGroup = true →
       (Body.sFindCollidingPairsCanCollide gf b1 b2 = true ∧
          Body.sFindCollidingPairsCanCollide gf b2 b1 = false) ∨
       (Body.sFindCollidingPairsCanCollide gf b2 b1 = true ∧
          Body.sFindCollidingPairsCanCollide gf b1 b2 = false)) ∧
    Body.sFindCollidingPairsCanCollide gf b1 b1 = false := by
  refine ⟨fun h => ((sFind_true_iff gf b1 b2).mp h).2.1, fun h => ?_, ?_, ?_⟩
  · exact sFind_false_of_ge gf b2 b1
      (Nat.le_of_lt ((sFind_true_iff gf b1 b2).mp h).2.1)
  · intro hd1 hd2 _ hne hg12 hg21
    rcases Nat.lt_or_ge b1.indexInActiveBodies b2.indexInActiveBodies with hlt | hge
    · refine Or.inl ⟨(sFind_true_iff gf b1 b2).mpr
        ⟨(eligibilityGate_true_iff b1 b2).mpr (Or.inl hd1), hlt, hg12⟩,
        sFind_false_of_ge gf b2 b1 (Nat.le_of_lt hlt)⟩
    · refine Or.inr ⟨(sFind_true_iff gf b2 b1).mpr
        ⟨(eligibilityGate_true_iff b2 b1).mpr (Or.inl hd2), ?_, hg21⟩,
        sFind_false_of_ge gf b1 b2 hge⟩
      omega
  · exact sFind_false_of_ge gf b1 b1 (Nat.le_refl _)

/-- Witness for C1 at the concrete dynamic bodies `bodyA` (index 2) and `bodyB`
(index 5) with an all-admitting group filter. -/
theorem sFind_ordering_antisymmetry_witness :
    bodyA.IsActive = true ∧ bodyA.IsStatic = false ∧
    (Body.sFindCollidingPairsCanCollide gfAll bodyA bodyB = true →
       Body.sFindCollidingPairsCanCollide gfAll bodyB bodyA = false) ∧
    Body.sFindCollidingPairsCanCollide gfAll bodyA bodyA = false :=
  ⟨by decide, by decide,
   (sFind_ordering_antisymmetry gfAll bodyA bodyB (by decide) (by decide)).2.1,
   (sFind_ordering_antisymmetry gfAll bodyA bodyB (by decide) (by decide)).2.2.2⟩

/-- C2: `sFindCollidingPairsCanCollide` rejects every pair in which neither body is
dynamic, except that a kinematic body 1 against a sensor body 2 proceeds to the
remaining (ordering and group) checks; the reversed shape — a non-dynamic sensor
as body 1 against a kinematic non-sensor body 2 — is rejected at the gate. -/
theorem sFind_eligibility_gate (gf : Nat → Nat → Bool) (b1 b2 : Body) :
    (b1.IsDynamic = false → b2.IsDynamic = false →
       ¬(b1.IsKinematic = true ∧ b2.IsSensor = true) →
       Body.sFindCollidingPairsCanCollide gf b1 b2 = false) ∧
    (b1.IsKinematic = true → b2.IsSensor = true →
       Body.sFindCollidingPairsCanCollide gf b1 b2 =
         (decide (b1.indexInActiveBodies < b2.indexInActiveBodies) &&
           gf b1.collisionGroup b2.collisionGroup)) ∧
    (b1.IsSensor = true → b1.IsDynamic = false →
       b2.motionType = EMotionType.Kinematic → b2.IsSensor = false →
       Body.sFindCollidingPairsCanCollide gf b1 b2 = false) := by
  refine ⟨fun hd1 hd2 hk => ?_, fun hk hs => ?_, fun _ hd1 hk2 hs2 => ?_⟩
  · have hg : Body.eligibilityGate b1 b2 = false := by
      cases h3 : b1.IsKinematic <;> cases h4 : b2.IsSensor <;>
        simp_all [Body.eligibilityGate]
    unfold Body.sFindCollidingPairsCanCollide
    simp [hg]
  · have hg : Body.eligibilityGate b1 b2 = true :=
      (eligibilityGate_true_iff b1 b2).mpr (Or.inr (Or.inr ⟨hk, hs⟩))
    unfold Body.sFindCollidingPairsCanCollide
    rcases Nat.lt_or_ge b1.indexInActiveBodies b2.indexInActiveBodies with hlt | hge
    · cases hgf : gf b1.collisionGroup b2.collisionGroup <;>
        simp [hg, hgf, Nat.not_le_of_lt hlt, hlt]
    · simp [hg, hge, Nat.not_lt_of_le hge]
  · have hd2 : b2.IsDynamic = false := by
      simp [Body.IsDynamic, hk2]
    have hg : Body.eligibilityGate b1 b2 = false := by
      simp [Body.eligibilityGate, Body.IsKinematic, hk2, hd1, hd2, hs2]
    unfold Body.sFindCollidingPairsCanCollide
    simp [hg]

/-- Witness for C2: a static-vs-static pair is rejected, the kinematic-vs-sensor
exception reduces to the ordering and group checks, and the reversed
sensor-vs-kinematic shape is rejected. -/
theorem sFind_eligibility_gate_witness :
    Body.sFindCollidingPairsCanCollide gfAll bodyS bodyS = false ∧
    Body.sFindCollidingPairsCanCollide gfAll bodyK bodyS =
      (decide (bodyK.indexInActiveBodies < bodyS.indexInActiveBodies) &&
        gfAll bodyK.collisionGroup bodyS.collisionGroup) ∧
    Body.sFindCollidingPairsCanCollide gfAll bodyS bodyK = false :=
  ⟨(sFind_eligibility_gate gfAll bodyS bodyS).1 (by decide) (by decide) (by decide),
   (sFind_eligibility_gate gfAll bodyK bodyS).2.1 (by decide) (by decide),
   (sFind_eligibility_gate gfAll bodyS bodyK).2.2 (by decide) (by decide) (by decide)
     (by decide)⟩

/-- C3: with body 1 active and non-static, if the collision-group predicate
declares the two bodies' groups non-colliding then
`sFindCollidingPairsCanCollide` rejects the pair, regardless of motion types and
active indices. -/
theorem sFind_group_veto (gf : Nat → Nat → Bool) (b1 b2 : Body)
    (hact : b1.IsActive = true) (hns : b1.IsStatic = false)
    (hg : gf b1.collisionGroup b2.collisionGroup = false) :
    Body.sFindCollidingPairsCanCollide gf b1 b2 = false := by
  cases hb : Body.sFindCollidingPairsCanCollide gf b1 b2 with
  | false => rfl
  | true =>
    have := ((sFind_true_iff gf b1 b2).mp hb).2.2
    simp_all

/-- Witness for C3 at the concrete dynamic bodies `bodyA`, `bodyB` under the
all-rejecting group filter. -/
theorem sFind_group_veto_witness :
    bodyA.IsActive = true ∧ bodyA.IsStatic = false ∧
    gfNone bodyA.collisionGroup bodyB.collisionGroup = false ∧
    Body.sFindCollidingPairsCanCollide gfNone bodyA bodyB = false :=
  ⟨by decide, by decide, by decide,
   sFind_group_veto gfNone bodyA bodyB (by decide) (by decide) (by decide)⟩

@[ext] lemma Vec3.ext3 {v w : Vec3} (hx : v.x = w.x) (hy : v.y = w.y)
    (hz : v.z = w.z) : v = w := by
  cases v; cases w; simp_all

@[ext] lemma Quat.ext4 {p q : Quat} (hx : p.x = q.x) (hy : p.y = q.y)
    (hz : p.z = q.z) (hw : p.w = q.w) : p = q := by
  cases p; cases q; simp_all

@[simp] lemma Vec3.add_x (v w : Vec3) : (v + w).x = v.x + w.x := rfl

@[simp] lemma Vec3.add_y (v w : Vec3) : (v + w).y = v.y + w.y := rfl

@[simp] lemma Vec3.add_z (v w : Vec3) : (v + w).z = v.z + w.z := rfl

@[simp] lemma Vec3.sub_x (v w : Vec3) : (v - w).x = v.x - w.x := rfl

@[simp] lemma Vec3.sub_y (v w : Vec3) : (v - w).y = v.y - w.y := rfl

@[simp] lemma Vec3.sub_z (v w : Vec3) : (v - w).z = v.z - w.z := rfl

@[simp] lemma Vec3.smul_x (r : ℝ) (v : Vec3) : (r • v).x = r * v.x := rfl

@[simp] lemma Vec3.smul_y (r : ℝ) (v : Vec3) : (r • v).y = r * v.y := rfl

@[simp] lemma Vec3.smul_z (r : ℝ) (v : Vec3) : (r • v).z = r * v.z := rfl

@[simp] lemma Vec3.zero_x : Vec3.zero.x = 0 := rfl

@[simp] lemma Vec3.zero_y : Vec3.zero.y = 0 := rfl

@[simp] lemma Vec3.zero_z : Vec3.zero.z = 0 := rfl

lemma Vec3.lengthSq_nonneg (v : Vec3) : 0 ≤ v.lengthSq := by
  unfold Vec3.lengthSq; positivity

lemma Vec3.sq_length (v : Vec3) : v.length ^ 2 = v.lengthSq :=
  Real.sq_sqrt (Vec3.lengthSq_nonneg v)

lemma Vec3.lengthSq_smul (r : ℝ) (v : Vec3) :
    (r • v).lengthSq = r ^ 2 * v.lengthSq := by
  show (Vec3.smul r v).lengthSq = r ^ 2 * v.lengthSq
  unfold Vec3.smul Vec3.lengthSq; dsimp; ring

lemma Vec3.lengthSq_unit_axis (d : Vec3) (h : 0 < d.length) :
    (d.length⁻¹ • d).lengthSq = 1 := by
  have hne : d.length ≠ 0 := ne_of_gt h
  rw [Vec3.lengthSq_smul, ← Vec3.sq_length]
  field_simp

lemma Quat.lengthSq_mul (p q : Quat) :
    (p.mul q).lengthSq = p.lengthSq * q.lengthSq := by
  unfold Quat.mul Quat.lengthSq; dsimp; ring

lemma Quat.lengthSq_sRotation (u : Vec3) (θ : ℝ) (hu : u.lengthSq = 1) :
    (Quat.sRotation u θ).lengthSq = 1 := by
  unfold Quat.sRotation Quat.lengthSq
  unfold Vec3.lengthSq at hu
  dsimp
  have hsc := Real.sin_sq_add_cos_sq (θ / 2)
  linear_combination (Real.sin (θ / 2)) ^ 2 * hu + hsc

lemma Quat.length_of_lengthSq_one (q : Quat) (h : q.lengthSq = 1) :
    q.length = 1 := by
  unfold Quat.length; rw [h, Real.sqrt_one]

lemma Quat.lengthSq_of_length_one (q : Quat) (h : q.length = 1) :
    q.lengthSq = 1 := by
  unfold Quat.length at h
  nlinarith [Real.sq_sqrt (show (0:ℝ) ≤ q.lengthSq by unfold Quat.lengthSq; positivity), h]

lemma Quat.normalized_of_lengthSq_one (q : Quat) (h : q.lengthSq = 1) :
    q.normalized = q := by
  unfold Quat.normalized
  rw [Quat.length_of_lengthSq_one q h, inv_one]
  unfold Quat.smul
  ext <;> dsimp <;> ring

lemma Quat.mul_assoc3 (p q r : Quat) : (p.mul q).mul r = p.mul (q.mul r) := by
  unfold Quat.mul
  ext <;> dsimp <;> ring

lemma Quat.one_mul3 (q : Quat) : Quat.one.mul q = q := by
  unfold Quat.one Quat.mul
  ext <;> dsimp <;> ring

lemma Quat.sRotation_neg_mul (u : Vec3) (θ : ℝ) (hu : u.lengthSq = 1) :
    (Quat.sRotation u (-θ)).mul (Quat.sRotation u θ) = Quat.one := by
  unfold Quat.sRotation Quat.mul Quat.one
  unfold Vec3.lengthSq at hu
  have hsc := Real.sin_sq_add_cos_sq (θ / 2)
  rw [neg_div, Real.sin_neg, Real.cos_neg]
  ext <;> dsimp
  · ring
  · ring
  · ring
  · linear_combination hsc + (Real.sin (θ / 2)) ^ 2 * hu

lemma rotationStep_product_lengthSq (q : Quat) (d : Vec3) (θ : ℝ)
    (hq : q.lengthSq = 1) (hlen : d.length > 1e-6) :
    ((Quat.sRotation (d.length⁻¹ • d) θ).mul q).lengthSq = 1 := by
  have hpos : (0:ℝ) < d.length := lt_trans (by norm_num) hlen
  rw [Quat.lengthSq_mul,
    Quat.lengthSq_sRotation _ _ (Vec3.lengthSq_unit_axis d hpos), hq]
  ring

/-- C4: a rotation step with any angular displacement keeps the rotation
quaternion's norm within `1e-5` of `1` (in the real-number model the re-normalized
result has norm exactly `1`), for both `addRotationStep` and `subRotationStep`. -/
theorem rotationStep_unit_norm (b : Body) (d : Vec3)
    (h : b.rotation.length = 1) :
    |(b.addRotationStep d).rotation.length - 1| ≤ 1e-5 ∧
    |(b.subRotationStep d).rotation.length - 1| ≤ 1e-5 := by
  have hsq : b.rotation.lengthSq = 1 := Quat.lengthSq_of_length_one _ h
  constructor
  · by_cases hlen : d.length > 1e-6
    · unfold Body.addRotationStep
      rw [if_pos hlen]
      dsimp
      have hm := rotationStep_product_lengthSq b.rotation d d.length hsq hlen
      rw [Quat.normalized_of_lengthSq_one _ hm, Quat.length_of_lengthSq_one _ hm]
      norm_num
    · unfold Body.addRotationStep
      rw [if_neg hlen, h]
      norm_num
  · by_cases hlen : d.length > 1e-6
    · unfold Body.subRotationStep
      rw [if_pos hlen]
      dsimp
      have hm := rotationStep_product_lengthSq b.rotation d (-d.length) hsq hlen
      rw [Quat.normalized_of_lengthSq_one _ hm, Quat.length_of_lengthSq_one _ hm]
      norm_num
    · unfold Body.subRotationStep
      rw [if_neg hlen, h]
      norm_num

/-- Witness for C4 at the identity rotation and the zero displacement. -/
theorem rotationStep_unit_norm_witness :
    bodyA.rotation.length = 1 ∧
    |(bodyA.addRotationStep Vec3.zero).rotation.length - 1| ≤ 1e-5 :=
  have h : bodyA.rotation.length = 1 := by
    show Real.sqrt ((0:ℝ) ^ 2 + 0 ^ 2 + 0 ^ 2 + 1 ^ 2) = 1
    norm_num
  ⟨h, (rotationStep_unit_norm bodyA Vec3.zero h).1⟩

/-- C5: a rotation step whose angular displacement has length at most `1e-6`
leaves the body, in particular its rotation, unchanged. -/
theorem addRotationStep_small_noop (b : Body) (d : Vec3)
    (h : d.length ≤ 1e-6) :
    b.addRotationStep d = b := by
  unfold Body.addRotationStep
  rw [if_neg (not_lt.mpr h)]

/-- Witness for C5 at the zero displacement. -/
theorem addRotationStep_small_noop_witness :
    Vec3.zero.length ≤ 1e-6 ∧ bodyA.addRotationStep Vec3.zero = bodyA :=
  have h : Vec3.zero.length ≤ 1e-6 := by
    show Real.sqrt ((0:ℝ) ^ 2 + 0 ^ 2 + 0 ^ 2) ≤ 1e-6
    norm_num
  ⟨h, addRotationStep_small_noop bodyA Vec3.zero h⟩

/-- C6: for a unit starting rotation and a displacement longer than `1e-6`,
`subRotationStep d` right after `addRotationStep d` restores the rotation within
`1e-5` per component (exactly, in the real-number model), since the two
axis-angle quaternions are exact inverses. -/
theorem rotationStep_cancellation (b : Body) (d : Vec3)
    (h : b.rotation.length = 1) (hlen : d.length > 1e-6) :
    |((b.addRotationStep d).subRotationStep d).rotation.x - b.rotation.x| ≤ 1e-5 ∧
    |((b.addRotationStep d).subRotationStep d).rotation.y - b.rotation.y| ≤ 1e-5 ∧
    |((b.addRotationStep d).subRotationStep d).rotation.z - b.rotation.z| ≤ 1e-5 ∧
    |((b.addRotationStep d).subRotationStep d).rotation.w - b.rotation.w| ≤ 1e-5 := by
  have hsq : b.rotation.lengthSq = 1 := Quat.lengthSq_of_length_one _ h
  have hpos : (0:ℝ) < d.length := lt_trans (by norm_num) hlen
  have hu : (d.length⁻¹ • d).lengthSq = 1 := Vec3.lengthSq_unit_axis d hpos
  have hm := rotationStep_product_lengthSq b.rotation d d.length hsq hlen
  have e1 : b.addRotationStep d =
      { b with rotation :=
          (Quat.sRotation (d.length⁻¹ • d) d.length).mul b.rotation } := by
    unfold Body.addRotationStep
    rw [if_pos hlen, Quat.normalized_of_lengthSq_one _ hm]
  have e2 : (b.addRotationStep d).subRotationStep d = b := by
    rw [e1]
    unfold Body.subRotationStep
    dsimp
    rw [if_pos hlen, ← Quat.mul_assoc3, Quat.sRotation_neg_mul _ _ hu,
      Quat.one_mul3, Quat.normalized_of_lengthSq_one _ hsq]
  rw [e2]
  norm_num

/-- Witness for C6 at the identity rotation and the displacement `(2, 0, 0)`. -/
theorem rotationStep_cancellation_witness :
    bodyA.rotation.length = 1 ∧ (Vec3.mk 2 0 0).length > 1e-6 ∧
    |((bodyA.addRotationStep (Vec3.mk 2 0 0)).subRotationStep
        (Vec3.mk 2 0 0)).rotation.w - bodyA.rotation.w| ≤ 1e-5 :=
  have h : bodyA.rotation.length = 1 := by
    show Real.sqrt ((0:ℝ) ^ 2 + 0 ^ 2 + 0 ^ 2 + 1 ^ 2) = 1
    norm_num
  have hlen : (Vec3.mk 2 0 0).length > 1e-6 := by
    show Real.sqrt ((2:ℝ) ^ 2 + 0 ^ 2 + 0 ^ 2) > 1e-6
    rw [show ((2:ℝ) ^ 2 + 0 ^ 2 + 0 ^ 2) = 2 ^ 2 by norm_num,
      Real.sqrt_sq (by norm_num)]
    norm_num
  ⟨h, hlen,
   (rotationStep_cancellation bodyA (Vec3.mk 2 0 0) h hlen).2.2.2⟩

lemma rotateByQuatTransposed_rotateByQuat (q : Quat) (v : Vec3)
    (h : q.lengthSq = 1) :
    rotateByQuatTransposed q (rotateByQuat q v) = v := by
  unfold rotateByQuat rotateByQuatTransposed
  unfold Quat.lengthSq at h
  ext <;> dsimp
  · linear_combination
      (4 * ((q.y ^ 2 + q.z ^ 2) * v.x - q.x * q.y * v.y - q.x * q.z * v.z)) * h
  · linear_combination
      (4 * (-(q.x * q.y) * v.x + (q.x ^ 2 + q.z ^ 2) * v.y - q.y * q.z * v.z)) * h
  · linear_combination
      (4 * (-(q.x * q.z) * v.x - q.y * q.z * v.y + (q.x ^ 2 + q.y ^ 2) * v.z)) * h

/-- C7: for a body with unit-norm rotation, the analytically built inverse
center-of-mass transform composed with the center-of-mass transform maps every
point to itself within `1e-5` per component (exactly, in the real-number model). -/
theorem com_transform_roundtrip (b : Body) (v : Vec3)
    (h : b.rotation.length = 1) :
    |(b.getInverseCenterOfMassTransform (b.getCenterOfMassTransform v)).x - v.x|
        ≤ 1e-5 ∧
    |(b.getInverseCenterOfMassTransform (b.getCenterOfMassTransform v)).y - v.y|
        ≤ 1e-5 ∧
    |(b.getInverseCenterOfMassTransform (b.getCenterOfMassTransform v)).z - v.z|
        ≤ 1e-5 := by
  have hsq : b.rotation.lengthSq = 1 := Quat.lengthSq_of_length_one _ h
  have e : b.getInverseCenterOfMassTransform (b.getCenterOfMassTransform v) = v := by
    unfold Body.getCenterOfMassTransform Body.getInverseCenterOfMassTransform
    have hc : rotateByQuat b.rotation v + b.position - b.position
        = rotateByQuat b.rotation v := by
      ext <;> simp
    rw [hc, rotateByQuatTransposed_rotateByQuat _ _ hsq]
  rw [e]
  norm_num

/-- Witness for C7 at the identity rotation and the point `(1, 2, 3)`. -/
theorem com_transform_roundtrip_witness :
    bodyA.rotation.length = 1 ∧
    |(bodyA.getInverseCenterOfMassTransform
        (bodyA.getCenterOfMassTransform (Vec3.mk 1 2 3))).x - (Vec3.mk 1 2 3).x|
      ≤ 1e-5 :=
  have h : bodyA.rotation.length = 1 := by
    show Real.sqrt ((0:ℝ) ^ 2 + 0 ^ 2 + 0 ^ 2 + 1 ^ 2) = 1
    norm_num
  ⟨h, (com_transform_roundtrip bodyA (Vec3.mk 1 2 3) h).1⟩

lemma clampLength_of_le (v : Vec3) (m : ℝ) (h : v.length ≤ m) :
    clampLength v m = v := by
  unfold clampLength
  rw [if_neg (not_lt.mpr h)]

/-- C8: `addImpulse` stores the old linear velocity plus `impulse * inverseMass`,
clamped to `maxLinearVelocity`; when the clamp is not reached the change is
exactly `impulse * inverseMass`, and (given the velocity-clamp invariant) the zero
impulse leaves the linear velocity unchanged. -/
theorem addImpulse_velocity_update (b : Body) (impulse : Vec3)
    (hdyn : b.motionType = EMotionType.Dynamic) :
    (b.addImpulse impulse).motionProperties.linearVelocity =
      clampLength
        (b.motionProperties.linearVelocity + b.motionProperties.inverseMass • impulse)
        b.motionProperties.maxLinearVelocity ∧
    ((b.motionProperties.linearVelocity
          + b.motionProperties.inverseMass • impulse).length
        ≤ b.motionProperties.maxLinearVelocity →
      (b.addImpulse impulse).motionProperties.linearVelocity =
        b.motionProperties.linearVelocity + b.motionProperties.inverseMass • impulse) ∧
    (b.motionProperties.linearVelocity.length ≤ b.motionProperties.maxLinearVelocity →
      (b.addImpulse Vec3.zero).motionProperties.linearVelocity =
        b.motionProperties.linearVelocity) := by
  refine ⟨rfl, fun hle => ?_, fun hv => ?_⟩
  · unfold Body.addImpulse Body.setLinearVelocityClamped
    dsimp
    exact clampLength_of_le _ _ hle
  · unfold Body.addImpulse Body.setLinearVelocityClamped
    dsimp
    have hz : b.motionProperties.linearVelocity
        + b.motionProperties.inverseMass • Vec3.zero
        = b.motionProperties.linearVelocity := by
      ext <;> simp
    rw [hz]
    exact clampLength_of_le _ _ hv

/-- Witness for C8: the dynamic body `bodyA` (inverse mass `0.5`, zero velocity,
clamp `500`) hit by the impulse `(4, 0, 0)`. -/
theorem addImpulse_velocity_update_witness :
    bodyA.motionType = EMotionType.Dynamic ∧
    (bodyA.motionProperties.linearVelocity
        + bodyA.motionProperties.inverseMass • Vec3.mk 4 0 0).length
      ≤ bodyA.motionProperties.maxLinearVelocity ∧
    (bodyA.addImpulse (Vec3.mk 4 0 0)).motionProperties.linearVelocity =
      bodyA.motionProperties.linearVelocity
        + bodyA.motionProperties.inverseMass • Vec3.mk 4 0 0 :=
  have hle : (bodyA.motionProperties.linearVelocity
      + bodyA.motionProperties.inverseMass • Vec3.mk 4 0 0).length
      ≤ bodyA.motionProperties.maxLinearVelocity := by
    have e : bodyA.motionProperties.linearVelocity
        + bodyA.motionProperties.inverseMass • Vec3.mk 4 0 0 = Vec3.mk 2 0 0 := by
      ext <;> simp [bodyA, mpW] <;> norm_num
    rw [e]
    show Real.sqrt ((2:ℝ) ^ 2 + 0 ^ 2 + 0 ^ 2) ≤ 500
    rw [show ((2:ℝ) ^ 2 + 0 ^ 2 + 0 ^ 2) = 2 ^ 2 by norm_num,
      Real.sqrt_sq (by norm_num)]
    norm_num
  ⟨rfl, hle, (addImpulse_velocity_update bodyA (Vec3.mk 4 0 0) rfl).2.1 hle⟩

lemma getInverseInertia_zero (b : Body) :
    b.getInverseInertia Vec3.zero = Vec3.zero := by
  unfold Body.getInverseInertia rotateByQuat rotateByQuatTransposed Vec3.hadamard
  ext <;> simp

lemma Vec3.length_zero : Vec3.zero.length = 0 := by
  unfold Vec3.length Vec3.lengthSq
  dsimp
  rw [show ((0:ℝ) ^ 2 + 0 ^ 2 + 0 ^ 2) = 0 by norm_num, Real.sqrt_zero]

lemma Vec3.length_mk_two : (Vec3.mk 2 0 0).length = 2 := by
  unfold Vec3.length Vec3.lengthSq
  dsimp
  rw [show ((2:ℝ) ^ 2 + 0 ^ 2 + 0 ^ 2) = 2 ^ 2 by norm_num,
    Real.sqrt_sq (by norm_num)]

/-- C9: `addImpulseAtPosition` updates the linear velocity by
`impulse * inverseMass` (clamped) and the angular velocity by
`InverseInertiaWorld * ((position - center) × impulse)` (clamped); in particular a
body with inverse mass `0.5` and zero velocities hit by `(4, 0, 0)` exactly at its
center of mass ends with linear velocity `(2, 0, 0)` and unchanged angular
velocity. -/
theorem addImpulseAtPosition_update (b : Body) (impulse position : Vec3)
    (hdyn : b.motionType = EMotionType.Dynamic) :
    ((b.addImpulseAtPosition impulse position).motionProperties.linearVelocity =
        clampLength
          (b.motionProperties.linearVelocity
            + b.motionProperties.inverseMass • impulse)
          b.motionProperties.maxLinearVelocity ∧
      (b.addImpulseAtPosition impulse position).motionProperties.angularVelocity =
        clampLength
          (b.motionProperties.angularVelocity
            + b.getInverseInertia (Vec3.cross (position - b.position) impulse))
          b.motionProperties.maxAngularVelocity) ∧
    (b.motionProperties.inverseMass = 0.5 →
      b.motionProperties.linearVelocity = Vec3.zero →
      b.motionProperties.angularVelocity = Vec3.zero →
      2 ≤ b.motionProperties.maxLinearVelocity →
      0 ≤ b.motionProperties.maxAngularVelocity →
      (b.addImpulseAtPosition (Vec3.mk 4 0 0)
          b.position).motionProperties.linearVelocity = Vec3.mk 2 0 0 ∧
      (b.addImpulseAtPosition (Vec3.mk 4 0 0)
          b.position).motionProperties.angularVelocity =
        b.motionProperties.angularVelocity) := by
  refine ⟨⟨rfl, rfl⟩, fun him hlv hav hml hma => ⟨?_, ?_⟩⟩
  · unfold Body.addImpulseAtPosition Body.setLinearVelocityClamped
      Body.setAngularVelocityClamped
    dsimp
    have e : b.motionProperties.linearVelocity
        + b.motionProperties.inverseMass • Vec3.mk 4 0 0 = Vec3.mk 2 0 0 := by
      rw [hlv, him]
      ext <;> simp <;> norm_num
    rw [e]
    apply clampLength_of_le
    rw [Vec3.length_mk_two]
    exact hml
  · unfold Body.addImpulseAtPosition Body.setLinearVelocityClamped
      Body.setAngularVelocityClamped
    dsimp
    have e0 : b.position - b.position = Vec3.zero := by
      ext <;> simp
    have ec : Vec3.cross Vec3.zero (Vec3.mk 4 0 0) = Vec3.zero := by
      unfold Vec3.cross
      ext <;> simp
    have ea : b.motionProperties.angularVelocity + Vec3.zero
        = b.motionProperties.angularVelocity := by
      ext <;> simp [Vec3.zero]
    rw [e0, ec, getInverseInertia_zero, ea, hav]
    apply clampLength_of_le
    rw [Vec3.length_zero]
    exact hma

/-- Witness for C9: the end-to-end scenario evaluated at the dynamic body
`bodyA` (inverse mass `0.5`, zero velocities, clamps `500` and `47`). -/
theorem addImpulseAtPosition_update_witness :
    bodyA.motionType = EMotionType.Dynamic ∧
    bodyA.motionProperties.inverseMass = 0.5 ∧
    (bodyA.addImpulseAtPosition (Vec3.mk 4 0 0)
        bodyA.position).motionProperties.linearVelocity = Vec3.mk 2 0 0 ∧
    (bodyA.addImpulseAtPosition (Vec3.mk 4 0 0)
        bodyA.position).motionProperties.angularVelocity =
      bodyA.motionProperties.angularVelocity :=
  have hs := (addImpulseAtPosition_update bodyA (Vec3.mk 4 0 0) bodyA.position rfl).2
    rfl rfl rfl (by norm_num [bodyA, mpW]) (by norm_num [bodyA, mpW])
  ⟨rfl, rfl, hs.1, hs.2⟩

lemma addRotationStep_frame (b : Body) (d : Vec3) :
    (b.addRotationStep d).position = b.position ∧
    (b.addRotationStep d).motionType = b.motionType ∧
    (b.addRotationStep d).indexInActiveBodies = b.indexInActiveBodies ∧
    (b.addRotationStep d).collisionGroup = b.collisionGroup ∧
    (b.addRotationStep d).isSensor = b.isSensor ∧
    (b.addRotationStep d).id = b.id ∧
    (b.addRotationStep d).motionProperties = b.motionProperties := by
  unfold Body.addRotationStep
  split_ifs <;> exact ⟨rfl, rfl, rfl, rfl, rfl, rfl, rfl⟩

lemma subRotationStep_frame (b : Body) (d : Vec3) :
    (b.subRotationStep d).position = b.position ∧
    (b.subRotationStep d).motionType = b.motionType ∧
    (b.subRotationStep d).indexInActiveBodies = b.indexInActiveBodies ∧
    (b.subRotationStep d).collisionGroup = b.collisionGroup ∧
    (b.subRotationStep d).isSensor = b.isSensor ∧
    (b.subRotationStep d).id = b.id ∧
    (b.subRotationStep d).motionProperties = b.motionProperties := by
  unfold Body.subRotationStep
  split_ifs <;> exact ⟨rfl, rfl, rfl, rfl, rfl, rfl, rfl⟩

/-- C10: the impulse operations change only the velocity fields — position,
rotation, motion type, active index, collision group, inverse mass and inverse
inertia are untouched — and the rotation steps change only the rotation field.
(`sFindCollidingPairsCanCollide` is a pure boolean function of its two bodies in
this embedding, so it mutates neither argument by construction.) -/
theorem impulse_rotation_frame_effects (b : Body) (i p l d : Vec3)
    (hdyn : b.motionType = EMotionType.Dynamic) :
    ((b.addImpulse i).position = b.position ∧
      (b.addImpulse i).rotation = b.rotation ∧
      (b.addImpulse i).motionType = b.motionType ∧
      (b.addImpulse i).indexInActiveBodies = b.indexInActiveBodies ∧
      (b.addImpulse i).collisionGroup = b.collisionGroup ∧
      (b.addImpulse i).motionProperties.inverseMass
        = b.motionProperties.inverseMass ∧
      (b.addImpulse i).motionProperties.invInertiaDiagonal
        = b.motionProperties.invInertiaDiagonal) ∧
    ((b.addImpulseAtPosition i p).position = b.position ∧
      (b.addImpulseAtPosition i p).rotation = b.rotation ∧
      (b.addImpulseAtPosition i p).motionType = b.motionType ∧
      (b.addImpulseAtPosition i p).indexInActiveBodies = b.indexInActiveBodies ∧
      (b.addImpulseAtPosition i p).collisionGroup = b.collisionGroup ∧
      (b.addImpulseAtPosition i p).motionProperties.inverseMass
        = b.motionProperties.inverseMass ∧
      (b.addImpulseAtPosition i p).motionProperties.invInertiaDiagonal
        = b.motionProperties.invInertiaDiagonal) ∧
    ((b.addAngularImpulse l).position = b.position ∧
      (b.addAngularImpulse l).rotation = b.rotation ∧
      (b.addAngularImpulse l).motionType = b.motionType ∧
      (b.addAngularImpulse l).indexInActiveBodies = b.indexInActiveBodies ∧
      (b.addAngularImpulse l).collisionGroup = b.collisionGroup ∧
      (b.addAngularImpulse l).motionProperties.inverseMass
        = b.motionProperties.inverseMass ∧
      (b.addAngularImpulse l).motionProperties.invInertiaDiagonal
        = b.motionProperties.invInertiaDiagonal ∧
      (b.addAngularImpulse l).motionProperties.linearVelocity
        = b.motionProperties.linearVelocity) ∧
    ((b.addRotationStep d).position = b.position ∧
      (b.addRotationStep d).motionType = b.motionType ∧
      (b.addRotationStep d).indexInActiveBodies = b.indexInActiveBodies ∧
      (b.addRotationStep d).collisionGroup = b.collisionGroup ∧
      (b.addRotationStep d).motionProperties = b.motionProperties) ∧
    ((b.subRotationStep d).position = b.position ∧
      (b.subRotationStep d).motionType = b.motionType ∧
      (b.subRotationStep d).indexInActiveBodies = b.indexInActiveBodies ∧
      (b.subRotationStep d).collisionGroup = b.collisionGroup ∧
      (b.subRotationStep d).motionProperties = b.motionProperties) := by
  have ha := addRotationStep_frame b d
  have hs := subRotationStep_frame b d
  exact ⟨⟨rfl, rfl, rfl, rfl, rfl, rfl, rfl⟩,
    ⟨rfl, rfl, rfl, rfl, rfl, rfl, rfl⟩,
    ⟨rfl, rfl, rfl, rfl, rfl, rfl, rfl, rfl⟩,
    ⟨ha.1, ha.2.1, ha.2.2.1, ha.2.2.2.1, ha.2.2.2.2.2.2⟩,
    ⟨hs.1, hs.2.1, hs.2.2.1, hs.2.2.2.1, hs.2.2.2.2.2.2⟩⟩

/-- Witness for C10 at the dynamic body `bodyA` with concrete impulse and
displacement vectors. -/
theorem impulse_rotation_frame_effects_witness :
    bodyA.motionType = EMotionType.Dynamic ∧
    (bodyA.addImpulse (Vec3.mk 1 2 3)).position = bodyA.position ∧
    (bodyA.addRotationStep (Vec3.mk 2 0 0)).motionProperties
      = bodyA.motionProperties :=
  ⟨rfl,
   (impulse_rotation_frame_effects bodyA (Vec3.mk 1 2 3) (Vec3.mk 0 1 0)
      (Vec3.mk 0 0 1) (Vec3.mk 2 0 0) rfl).1.1,
   (impulse_rotation_frame_effects bodyA (Vec3.mk 1 2 3) (Vec3.mk 0 1 0)
      (Vec3.mk 0 0 1) (Vec3.mk 2 0 0) rfl).2.2.2.1.2.2.2.2⟩
